import Mathlib

/-!
Shallow embedding of the balance-refresh logic of the Goldium dashboard:

* `src/goldium-vercel-deploy/src/stores/useTokenBalanceStore.tsx`
  (the zustand store with `getTokenBalance` and `getAllTokenBalances`), and
* `src/src/components/BalanceTracker.tsx`
  (the component with `fetchPriceData`, the refresh button and the timers).

External RPC interactions (`connection.getBalance`, `getAssociatedTokenAddress`,
`connection.getAccountInfo`, `getAccount`, the HTTP price endpoint) are modelled
as oracles supplied per attempt; amounts are rationals (the JS code divides raw
integer amounts by powers of ten).  `TOKENS.GOLD.decimals` lives in a config
file not present in the sources, so the decimal count is a parameter.
-/

set_option autoImplicit false

namespace Goldium

/-- Public keys / addresses, modelled by their base58 string form. -/
abbrev PubKey := String

/-- `LAMPORTS_PER_SOL` from `@solana/web3.js`: 10^9 lamports per SOL. -/
def LAMPORTS_PER_SOL : ℚ := 1000000000

/-- The SPL token program id checked at `useTokenBalanceStore.tsx` line 147. -/
def TOKEN_PROGRAM_ID : PubKey := "TokenkegQfeZyiNwAJbNbGKPFXCWuBvf9Ss623VQ5DA"

/-- Result of `connection.getAccountInfo`: the raw data payload and the owner. -/
structure AccountInfo where
  data : List Nat
  owner : PubKey
  deriving DecidableEq

/-- Result of `getAccount` (spl-token): the raw token amount. -/
structure TokenAccountData where
  amount : Int
  deriving DecidableEq

/-- Oracle for one GOLD fetch attempt: the outcomes of the three external calls
the attempt body makes (`getAssociatedTokenAddress`, `connection.getAccountInfo`,
`getAccount`).  `Except.error` models a thrown/rejected promise. -/
structure GoldAttemptEnv where
  ataResult : Except Unit PubKey
  accountInfoResult : Except Unit (Option AccountInfo)
  getAccountResult : Except Unit TokenAccountData

/-- Oracles for a whole refresh: the outcome of `connection.getBalance` and of
the GOLD attempt body, per attempt index. -/
structure RefreshEnv where
  solAttempts : Nat → Except Unit Int
  goldAttempts : Nat → GoldAttemptEnv

/-- The `TokenBalance` record of the store. -/
structure Balances where
  SOL : ℚ
  GOLD : ℚ
  deriving DecidableEq

/-- The mutable zustand store state (`balances`, `isLoading`). -/
structure StoreState where
  balances : Balances
  isLoading : Bool
  deriving DecidableEq

/-- The `for (let i = 0; i < n; i++)` retry loop that rethrows the error of the
last attempt (`if (i === 2) throw error`), used for SOL at lines 38-49 and
120-131.  `remaining` counts the retries still allowed after the current
attempt (the source runs 3 attempts, i.e. `remaining = 2`); `used` counts the
attempts already spent.  Returns the outcome together with the total number of
attempts performed. -/
def retryOrThrow {α : Type} (op : Nat → Except Unit α) : Nat → Nat → Except Unit α × Nat
  | 0, used =>
    match op used with
    | Except.ok v => (Except.ok v, used + 1)
    | Except.error e => (Except.error e, used + 1)
  | Nat.succ m, used =>
    match op used with
    | Except.ok v => (Except.ok v, used + 1)
    | Except.error _ => retryOrThrow op m (used + 1)

/-- The retry loop that, on the last attempt's failure, falls back to a default
value instead of rethrowing (`if (i === 2) { balance = 0 }`), used for GOLD at
lines 55-80 and 138-170. -/
def retryWithFallback {α : Type} (op : Nat → Except Unit α) (fallback : α) :
    Nat → Nat → α × Nat
  | 0, used =>
    match op used with
    | Except.ok v => (v, used + 1)
    | Except.error _ => (fallback, used + 1)
  | Nat.succ m, used =>
    match op used with
    | Except.ok v => (v, used + 1)
    | Except.error _ => retryWithFallback op fallback m (used + 1)

/-- One SOL fetch attempt: `connection.getBalance` followed by division by
`LAMPORTS_PER_SOL`. -/
def solAttempt (r : Except Unit Int) : Except Unit ℚ :=
  r.map fun lamports => (lamports : ℚ) / LAMPORTS_PER_SOL

/-- One GOLD fetch attempt of `getAllTokenBalances` (lines 138-170), with the
enhanced validation: the account must exist, its data must be non-empty, and
its owner must be the SPL token program; otherwise the attempt yields 0. -/
def goldAttemptAll (e : GoldAttemptEnv) (decimals : Nat) : Except Unit ℚ :=
  match e.ataResult with
  | Except.error er => Except.error er
  | Except.ok _ =>
    match e.accountInfoResult with
    | Except.error er => Except.error er
    | Except.ok none => Except.ok 0
    | Except.ok (some ai) =>
      if ai.data ≠ [] then
        if ai.owner = TOKEN_PROGRAM_ID then
          match e.getAccountResult with
          | Except.error er => Except.error er
          | Except.ok ta => Except.ok ((ta.amount : ℚ) / (10 : ℚ) ^ decimals)
        else
          Except.ok 0
      else
        Except.ok 0

/-- One GOLD fetch attempt of `getTokenBalance` (lines 55-80): only the
existence check is performed before trusting `getAccount`; there is no
data-length or owner validation in this path. -/
def goldAttemptOne (e : GoldAttemptEnv) (decimals : Nat) : Except Unit ℚ :=
  match e.ataResult with
  | Except.error er => Except.error er
  | Except.ok _ =>
    match e.accountInfoResult with
    | Except.error er => Except.error er
    | Except.ok none => Except.ok 0
    | Except.ok (some _) =>
      match e.getAccountResult with
      | Except.error er => Except.error er
      | Except.ok ta => Except.ok ((ta.amount : ℚ) / (10 : ℚ) ^ decimals)

/-- The tracked asset symbols (`keyof TokenBalance`). -/
inductive Symbol
  | SOL
  | GOLD
  deriving DecidableEq

/-- `getTokenBalance` (lines 30-96).  The SOL branch rethrows on exhaustion, so
the outer catch only clears `isLoading` and the balance entry keeps its previous
value; the GOLD branch falls back to 0 on exhaustion and always stores. -/
def getTokenBalance (tokenSymbol : Symbol) (env : RefreshEnv) (decimals : Nat)
    (s : StoreState) : StoreState :=
  match tokenSymbol with
  | Symbol.SOL =>
    match (retryOrThrow (fun i => solAttempt (env.solAttempts i)) 2 0).1 with
    | Except.error _ => { s with isLoading := false }
    | Except.ok v => { balances := { s.balances with SOL := v }, isLoading := false }
  | Symbol.GOLD =>
    let v := (retryWithFallback (fun i => goldAttemptOne (env.goldAttempts i) decimals) 0 2 0).1
    { balances := { s.balances with GOLD := v }, isLoading := false }

/-- Observable outcome of one `getAllTokenBalances` call: the final store
state, the payload of the `balanceUpdated` event if one was dispatched, and
how many SOL / GOLD fetch attempts were performed. -/
structure RefreshResult where
  state : StoreState
  emitted : Option Balances
  solCalls : Nat
  goldCalls : Nat
  deriving DecidableEq

/-- `getAllTokenBalances` (lines 98-200).  Null guards return early with
`isLoading := false`; then the SOL retry loop runs (rethrowing on exhaustion,
which the outer catch absorbs, skipping the GOLD fetch and the snapshot);
then the GOLD retry loop with fallback 0; on reaching the end, the full
snapshot is stored and the `balanceUpdated` event dispatched. -/
def getAllTokenBalances (publicKey : Option PubKey) (connection : Option Unit)
    (env : RefreshEnv) (decimals : Nat) (s : StoreState) : RefreshResult :=
  if publicKey.isNone then
    { state := { s with isLoading := false }, emitted := none, solCalls := 0, goldCalls := 0 }
  else if connection.isNone then
    { state := { s with isLoading := false }, emitted := none, solCalls := 0, goldCalls := 0 }
  else
    let solR := retryOrThrow (fun i => solAttempt (env.solAttempts i)) 2 0
    match solR.1 with
    | Except.error _ =>
      { state := { s with isLoading := false }, emitted := none
        solCalls := solR.2, goldCalls := 0 }
    | Except.ok solAmount =>
      let goldR := retryWithFallback (fun i => goldAttemptAll (env.goldAttempts i) decimals) 0 2 0
      let snapshot : Balances := { SOL := solAmount, GOLD := goldR.1 }
      { state := { balances := snapshot, isLoading := false }, emitted := some snapshot
        solCalls := solR.2, goldCalls := goldR.2 }

/-- The manual refresh button of `BalanceTracker` carries
`disabled={isLoading}` (line 150). -/
def refreshButtonDisabled (isLoading : Bool) : Bool := isLoading

/-- The delayed-refresh timeouts (ms) scheduled by the initial-load effect of
`BalanceTracker` (lines 80-89). -/
def initialLoadTimeouts : List Nat := [3000, 10000]

/-- The initial-load effect cleanup runs `clearTimeout` on every pending
timeout (line 100), so none remain pending afterwards. -/
def clearTimeouts (_pending : List Nat) : List Nat := []

/-- The auto-refresh effect cleanup runs `clearInterval` (line 68), stopping
the periodic trigger. -/
def clearRefreshInterval (_active : Bool) : Bool := false

/-- One entry of the price endpoint response. -/
structure PriceEntry where
  symbol : String
  price : ℚ

/-- Parsed body of `/api/market/prices`: `{ success, data: { prices } }`. -/
structure PriceResponse where
  success : Bool
  prices : Option (List PriceEntry)

/-- The `forEach` loop building `priceMap` assigns entries in order, so a later
entry for the same symbol overwrites an earlier one. -/
def buildPriceMap (entries : List PriceEntry) : String → Option ℚ :=
  fun s => (entries.reverse.find? fun e => e.symbol = s).map fun e => e.price

/-- `fetchPriceData` of `BalanceTracker` (lines 26-40): on a transport failure
(fetch or JSON parse rejects) the catch block only logs and the previous price
state is kept; `setPriceData` runs only when `data.success` holds and a prices
array is present.  (The source text is missing the closing brace of the `if`
before `catch`; the evident intent, closing the `if` block there, is
embedded.) -/
def fetchPriceData (resp : Except Unit PriceResponse) (prev : String → Option ℚ) :
    String → Option ℚ :=
  match resp with
  | Except.error _ => prev
  | Except.ok d =>
    match d.prices with
    | some ps => if d.success then buildPriceMap ps else prev
    | none => prev

/-! ### Helper lemmas about the retry loops -/

theorem retryOrThrow_all_fail {α : Type} (op : Nat → Except Unit α)
    (remaining used : Nat) (h : ∀ i, op i = Except.error ()) :
    retryOrThrow op remaining used = (Except.error (), used + remaining + 1) := by
  induction remaining generalizing used with
  | zero => simp [retryOrThrow, h used]
  | succ m ih =>
    have ha : used + (m + 1) + 1 = used + 1 + m + 1 := by omega
    rw [ha]
    simp only [retryOrThrow, h used]
    exact ih (used + 1)

theorem retryWithFallback_all_fail {α : Type} (op : Nat → Except Unit α) (fb : α)
    (remaining used : Nat) (h : ∀ i, op i = Except.error ()) :
    retryWithFallback op fb remaining used = (fb, used + remaining + 1) := by
  induction remaining generalizing used with
  | zero => simp [retryWithFallback, h used]
  | succ m ih =>
    have ha : used + (m + 1) + 1 = used + 1 + m + 1 := by omega
    rw [ha]
    simp only [retryWithFallback, h used]
    exact ih (used + 1)

theorem retryOrThrow_succeeds {α : Type} (op : Nat → Except Unit α) (k : Nat) (v : α) :
    ∀ remaining used, k ≤ remaining →
      (∀ i, i < k → op (used + i) = Except.error ()) →
      op (used + k) = Except.ok v →
      retryOrThrow op remaining used = (Except.ok v, used + k + 1) := by
  induction k with
  | zero =>
    intro remaining used _ _ hs
    have h0 : op used = Except.ok v := by simpa using hs
    cases remaining <;> simp [retryOrThrow, h0]
  | succ n ih =>
    intro remaining used hk hf hs
    obtain ⟨m, rfl⟩ : ∃ m, remaining = m + 1 := ⟨remaining - 1, by omega⟩
    have h0 : op used = Except.error () := by simpa using hf 0 (Nat.succ_pos n)
    have ha : used + (n + 1) + 1 = used + 1 + n + 1 := by omega
    rw [ha]
    simp only [retryOrThrow, h0]
    refine ih m (used + 1) (by omega) (fun i hi => ?_) ?_
    · rw [(show used + 1 + i = used + (i + 1) by omega)]
      exact hf (i + 1) (by omega)
    · rw [(show used + 1 + n = used + (n + 1) by omega)]
      exact hs

theorem retryWithFallback_succeeds {α : Type} (op : Nat → Except Unit α) (fb : α)
    (k : Nat) (v : α) :
    ∀ remaining used, k ≤ remaining →
      (∀ i, i < k → op (used + i) = Except.error ()) →
      op (used + k) = Except.ok v →
      retryWithFallback op fb remaining used = (v, used + k + 1) := by
  induction k with
  | zero =>
    intro remaining used _ _ hs
    have h0 : op used = Except.ok v := by simpa using hs
    cases remaining <;> simp [retryWithFallback, h0]
  | succ n ih =>
    intro remaining used hk hf hs
    obtain ⟨m, rfl⟩ : ∃ m, remaining = m + 1 := ⟨remaining - 1, by omega⟩
    have h0 : op used = Except.error () := by simpa using hf 0 (Nat.succ_pos n)
    have ha : used + (n + 1) + 1 = used + 1 + n + 1 := by omega
    rw [ha]
    simp only [retryWithFallback, h0]
    refine ih m (used + 1) (by omega) (fun i hi => ?_) ?_
    · rw [(show used + 1 + i = used + (i + 1) by omega)]
      exact hf (i + 1) (by omega)
    · rw [(show used + 1 + n = used + (n + 1) by omega)]
      exact hs

theorem retryOrThrow_ok_exists {α : Type} (op : Nat → Except Unit α) :
    ∀ remaining used v, (retryOrThrow op remaining used).1 = Except.ok v →
      ∃ i, op i = Except.ok v := by
  intro remaining
  induction remaining with
  | zero =>
    intro used v h
    cases hop : op used with
    | ok w =>
      simp [retryOrThrow, hop] at h
      exact ⟨used, by rw [hop, h]⟩
    | error e => simp [retryOrThrow, hop] at h
  | succ m ih =>
    intro used v h
    cases hop : op used with
    | ok w =>
      simp [retryOrThrow, hop] at h
      exact ⟨used, by rw [hop, h]⟩
    | error e =>
      simp only [retryOrThrow, hop] at h
      exact ih (used + 1) v h

theorem retryWithFallback_val {α : Type} (op : Nat → Except Unit α) (fb : α) :
    ∀ remaining used, (retryWithFallback op fb remaining used).1 = fb ∨
      ∃ i, op i = Except.ok ((retryWithFallback op fb remaining used).1) := by
  intro remaining
  induction remaining with
  | zero =>
    intro used
    cases hop : op used with
    | ok w => exact Or.inr ⟨used, by simp [retryWithFallback, hop]⟩
    | error e => exact Or.inl (by simp [retryWithFallback, hop])
  | succ m ih =>
    intro used
    cases hop : op used with
    | ok w => exact Or.inr ⟨used, by simp [retryWithFallback, hop]⟩
    | error e =>
      have h := ih (used + 1)
      simpa [retryWithFallback, hop] using h

theorem retryOrThrow_calls_pos {α : Type} (op : Nat → Except Unit α) :
    ∀ remaining used, used + 1 ≤ (retryOrThrow op remaining used).2 := by
  intro remaining
  induction remaining with
  | zero =>
    intro used
    cases hop : op used <;> simp [retryOrThrow, hop]
  | succ m ih =>
    intro used
    cases hop : op used with
    | ok w => simp [retryOrThrow, hop]
    | error e =>
      simp only [retryOrThrow, hop]
      have h := ih (used + 1)
      omega

/-! ### Helper lemmas about the attempt bodies -/

theorem solAttempt_ok (r : Except Unit Int) (v : ℚ) (h : solAttempt r = Except.ok v) :
    ∃ lam : Int, r = Except.ok lam ∧ v = (lam : ℚ) / LAMPORTS_PER_SOL := by
  cases r with
  | error e => simp [solAttempt, Except.map] at h
  | ok lam =>
    refine ⟨lam, rfl, ?_⟩
    simp only [solAttempt, Except.map] at h
    exact (Except.ok.inj h).symm

theorem goldAttemptAll_ok (e : GoldAttemptEnv) (d : Nat) (v : ℚ)
    (h : goldAttemptAll e d = Except.ok v) :
    v = 0 ∨ ∃ ta, e.getAccountResult = Except.ok ta ∧
      v = (ta.amount : ℚ) / (10 : ℚ) ^ d := by
  unfold goldAttemptAll at h
  cases ha : e.ataResult with
  | error er => rw [ha] at h; exact absurd h (by simp)
  | ok a =>
    rw [ha] at h
    cases hi : e.accountInfoResult with
    | error er => rw [hi] at h; exact absurd h (by simp)
    | ok info =>
      rw [hi] at h
      cases info with
      | none => exact Or.inl (Except.ok.inj h).symm
      | some ai =>
        by_cases hd : ai.data = []
        · simp only [hd, ne_eq, not_true_eq_false, if_false] at h
          exact Or.inl (Except.ok.inj h).symm
        · simp only [ne_eq, hd, not_false_eq_true, if_true] at h
          by_cases ho : ai.owner = TOKEN_PROGRAM_ID
          · simp only [ho, if_true] at h
            cases hg : e.getAccountResult with
            | error er => rw [hg] at h; exact absurd h (by simp)
            | ok ta =>
              rw [hg] at h
              exact Or.inr ⟨ta, rfl, (Except.ok.inj h).symm⟩
          · simp only [ho, if_false] at h
            exact Or.inl (Except.ok.inj h).symm

theorem goldAttemptOne_ok (e : GoldAttemptEnv) (d : Nat) (v : ℚ)
    (h : goldAttemptOne e d = Except.ok v) :
    v = 0 ∨ ∃ ta, e.getAccountResult = Except.ok ta ∧
      v = (ta.amount : ℚ) / (10 : ℚ) ^ d := by
  unfold goldAttemptOne at h
  cases ha : e.ataResult with
  | error er => rw [ha] at h; exact absurd h (by simp)
  | ok a =>
    rw [ha] at h
    cases hi : e.accountInfoResult with
    | error er => rw [hi] at h; exact absurd h (by simp)
    | ok info =>
      rw [hi] at h
      cases info with
      | none => exact Or.inl (Except.ok.inj h).symm
      | some ai =>
        cases hg : e.getAccountResult with
        | error er => rw [hg] at h; exact absurd h (by simp)
        | ok ta =>
          rw [hg] at h
          exact Or.inr ⟨ta, rfl, (Except.ok.inj h).symm⟩

/-- Any value the SOL retry loop yields comes from a successful `getBalance`
divided by `LAMPORTS_PER_SOL`, hence is non-negative when the ledger reports
non-negative lamport amounts. -/
theorem solRetry_nonneg (env : RefreshEnv) (v : ℚ)
    (hsolEnv : ∀ i lam, env.solAttempts i = Except.ok lam → 0 ≤ lam)
    (h : (retryOrThrow (fun i => solAttempt (env.solAttempts i)) 2 0).1 = Except.ok v) :
    0 ≤ v := by
  obtain ⟨i, hi⟩ := retryOrThrow_ok_exists (fun i => solAttempt (env.solAttempts i)) 2 0 v h
  obtain ⟨lam, hlam, hv⟩ := solAttempt_ok (env.solAttempts i) v hi
  have hnn : (0 : ℚ) ≤ (lam : ℚ) := by exact_mod_cast hsolEnv i lam hlam
  rw [hv]
  exact div_nonneg hnn (by norm_num [LAMPORTS_PER_SOL])

/-- The GOLD retry loop of `getAllTokenBalances` yields a non-negative value
when the ledger reports non-negative raw token amounts. -/
theorem goldRetryAll_nonneg (env : RefreshEnv) (d : Nat)
    (hgoldEnv : ∀ i ta, (env.goldAttempts i).getAccountResult = Except.ok ta →
      0 ≤ ta.amount) :
    0 ≤ (retryWithFallback (fun i => goldAttemptAll (env.goldAttempts i) d) 0 2 0).1 := by
  rcases retryWithFallback_val (fun i => goldAttemptAll (env.goldAttempts i) d) 0 2 0 with
    h | ⟨i, hi⟩
  · rw [h]
  · rcases goldAttemptAll_ok (env.goldAttempts i) d _ hi with h0 | ⟨ta, hta, hv⟩
    · rw [h0]
    · have hnn : (0 : ℚ) ≤ (ta.amount : ℚ) := by exact_mod_cast hgoldEnv i ta hta
      rw [hv]
      exact div_nonneg hnn (by positivity)

/-- The GOLD retry loop of `getTokenBalance` yields a non-negative value when
the ledger reports non-negative raw token amounts. -/
theorem goldRetryOne_nonneg (env : RefreshEnv) (d : Nat)
    (hgoldEnv : ∀ i ta, (env.goldAttempts i).getAccountResult = Except.ok ta →
      0 ≤ ta.amount) :
    0 ≤ (retryWithFallback (fun i => goldAttemptOne (env.goldAttempts i) d) 0 2 0).1 := by
  rcases retryWithFallback_val (fun i => goldAttemptOne (env.goldAttempts i) d) 0 2 0 with
    h | ⟨i, hi⟩
  · rw [h]
  · rcases goldAttemptOne_ok (env.goldAttempts i) d _ hi with h0 | ⟨ta, hta, hv⟩
    · rw [h0]
    · have hnn : (0 : ℚ) ≤ (ta.amount : ℚ) := by exact_mod_cast hgoldEnv i ta hta
      rw [hv]
      exact div_nonneg hnn (by positivity)

/-! ### Concrete environments for counterexamples and witnesses -/

/-- Every external call fails on every attempt. -/
def alwaysFailEnv : RefreshEnv where
  solAttempts := fun _ => Except.error ()
  goldAttempts := fun _ =>
    { ataResult := Except.error ()
      accountInfoResult := Except.error ()
      getAccountResult := Except.error () }

/-- The SOL fetch fails on every attempt while the GOLD account is present,
valid and holds raw amount 5000000000 (5 GOLD at 9 decimals). -/
def goldOkEnv : RefreshEnv where
  solAttempts := fun _ => Except.error ()
  goldAttempts := fun _ =>
    { ataResult := Except.ok "ataAddr"
      accountInfoResult := Except.ok (some { data := [1], owner := TOKEN_PROGRAM_ID })
      getAccountResult := Except.ok { amount := 5000000000 } }

/-- Both fetches succeed on the first attempt (0 lamports, 0 raw GOLD). -/
def bothOkEnv : RefreshEnv where
  solAttempts := fun _ => Except.ok 0
  goldAttempts := fun _ =>
    { ataResult := Except.ok "ataAddr"
      accountInfoResult := Except.ok (some { data := [1], owner := TOKEN_PROGRAM_ID })
      getAccountResult := Except.ok { amount := 0 } }

/-- The GOLD token account exists but has an empty data payload and is owned by
a program other than the SPL token program; `getAccount` still answers with raw
amount 5. -/
def badOwnerEnv : RefreshEnv where
  solAttempts := fun _ => Except.error ()
  goldAttempts := fun _ =>
    { ataResult := Except.ok "ataAddr"
      accountInfoResult := Except.ok (some { data := [], owner := "SomeOtherProgram" })
      getAccountResult := Except.ok { amount := 5 } }

/-- The SOL fetch succeeds at once with 0 lamports; the GOLD fetch fails on
every attempt. -/
def goldFailEnv : RefreshEnv where
  solAttempts := fun _ => Except.ok 0
  goldAttempts := fun _ =>
    { ataResult := Except.error ()
      accountInfoResult := Except.error ()
      getAccountResult := Except.error () }

/-! ### Claim theorems -/

/-- Claim C8 (confirmed): for every retried fetch (both the rethrowing SOL
shape and the fallback GOLD shape, maxAttempts = 3), if the operation fails
exactly k < 3 times and then succeeds, the loop returns the success value and
performs exactly k + 1 attempts — in particular none after the first
success. -/
theorem c8_retry_stops_after_success (op : Nat → Except Unit ℚ) (fb : ℚ)
    (k : Nat) (v : ℚ) (hk : k < 3)
    (hf : ∀ i, i < k → op i = Except.error ())
    (hs : op k = Except.ok v) :
    retryOrThrow op 2 0 = (Except.ok v, k + 1) ∧
    retryWithFallback op fb 2 0 = (v, k + 1) := by
  have h1 := retryOrThrow_succeeds op k v 2 0 (by omega)
    (fun i hi => by simpa using hf i hi) (by simpa using hs)
  have h2 := retryWithFallback_succeeds op fb k v 2 0 (by omega)
    (fun i hi => by simpa using hf i hi) (by simpa using hs)
  exact ⟨by simpa using h1, by simpa using h2⟩

/-- Claim C8 witness: an operation failing once then succeeding with value 4
yields 4 after exactly 2 attempts in both loop shapes. -/
theorem c8_witness :
    retryOrThrow (fun i => if i = 0 then Except.error () else Except.ok (4 : ℚ)) 2 0 =
      (Except.ok 4, 2) ∧
    retryWithFallback (fun i => if i = 0 then Except.error () else Except.ok (4 : ℚ)) 0 2 0 =
      (4, 2) :=
  c8_retry_stops_after_success (fun i => if i = 0 then Except.error () else Except.ok 4) 0 1 4
    (by omega)
    (fun i hi => by
      have h0 : i = 0 := by omega
      rw [h0]
      rfl)
    rfl

/-- Claim C5 (corrected): when the operation fails on every attempt, both
retry loops perform exactly 3 attempts, but only the GOLD loop yields the
caller-supplied fallback; the SOL loop rethrows the final failure, which the
enclosing catch of `getAllTokenBalances` absorbs, leaving the balances
untouched and producing no snapshot. -/
theorem c5_exhaustion_attempts (env : RefreshEnv) (d : Nat) (s : StoreState)
    (pk : PubKey)
    (h : ∀ i, env.solAttempts i = Except.error ())
    (hg : ∀ i, goldAttemptAll (env.goldAttempts i) d = Except.error ()) :
    retryWithFallback (fun i => goldAttemptAll (env.goldAttempts i) d) 0 2 0 = (0, 3) ∧
    retryOrThrow (fun i => solAttempt (env.solAttempts i)) 2 0 = (Except.error (), 3) ∧
    getAllTokenBalances (some pk) (some ()) env d s =
      ⟨{ s with isLoading := false }, none, 3, 0⟩ := by
  have hs : ∀ i, solAttempt (env.solAttempts i) = Except.error () := fun i => by
    simp [solAttempt, h i, Except.map]
  have h1 := retryWithFallback_all_fail
    (fun i => goldAttemptAll (env.goldAttempts i) d) 0 2 0 hg
  have h2 := retryOrThrow_all_fail (fun i => solAttempt (env.solAttempts i)) 2 0 hs
  refine ⟨by simpa using h1, by simpa using h2, ?_⟩
  simp [getAllTokenBalances, h2]

/-- Claim C5 counterexample: with every external call failing, the claim as
stated fails for the SOL loop of `getAllTokenBalances`: after its 3 attempts
no fallback value is yielded — the error propagates to the outer catch, the
previous balances (7, 3) are kept, no snapshot is stored or emitted, and the
GOLD fetch never runs. -/
theorem c5_counterexample :
    retryOrThrow (fun i => solAttempt (alwaysFailEnv.solAttempts i)) 2 0 =
      (Except.error (), 3) ∧
    getAllTokenBalances (some "w") (some ()) alwaysFailEnv 9 ⟨⟨7, 3⟩, false⟩ =
      ⟨⟨⟨7, 3⟩, false⟩, none, 3, 0⟩ :=
  ⟨rfl, by decide⟩

/-- Claim C5 witness: instantiation of the amended statement at the
all-failing environment. -/
theorem c5_witness :
    retryWithFallback (fun i => goldAttemptAll (alwaysFailEnv.goldAttempts i) 9) 0 2 0 =
      (0, 3) ∧
    retryOrThrow (fun i => solAttempt (alwaysFailEnv.solAttempts i)) 2 0 =
      (Except.error (), 3) ∧
    getAllTokenBalances (some "w") (some ()) alwaysFailEnv 9 ⟨⟨7, 3⟩, true⟩ =
      ⟨⟨⟨7, 3⟩, false⟩, none, 3, 0⟩ :=
  c5_exhaustion_attempts alwaysFailEnv 9 ⟨⟨7, 3⟩, true⟩ "w"
    (fun _ => rfl) (fun _ => rfl)

/-- Claim C6 (confirmed): on a transport failure (fetch or JSON parse
rejects), `fetchPriceData` leaves the previously cached price map completely
unchanged — prices degrade to stale values, never to zero. -/
theorem c6_price_unchanged_on_transport_failure (e : Unit)
    (prev : String → Option ℚ) :
    fetchPriceData (Except.error e) prev = prev := rfl

/-- Claim C10 (confirmed): with a missing publicKey or connection,
`getAllTokenBalances` returns immediately: no fetch attempt is performed, the
balances are unchanged, `isLoading` is set to false and no `balanceUpdated`
event is emitted. -/
theorem c10_null_guard (pk : Option PubKey) (conn : Option Unit)
    (env : RefreshEnv) (d : Nat) (s : StoreState) (h : pk = none ∨ conn = none) :
    getAllTokenBalances pk conn env d s =
      ⟨{ s with isLoading := false }, none, 0, 0⟩ := by
  rcases h with h | h
  · subst h; rfl
  · subst h
    cases pk with
    | none => rfl
    | some a => rfl

/-- Claim C10 witness: instantiation with a missing publicKey. -/
theorem c10_witness :
    getAllTokenBalances none (some ()) bothOkEnv 9 ⟨⟨7, 3⟩, true⟩ =
      ⟨⟨⟨7, 3⟩, false⟩, none, 0, 0⟩ :=
  c10_null_guard none (some ()) bothOkEnv 9 ⟨⟨7, 3⟩, true⟩ (Or.inl rfl)

/-- Claim C1 (amended): in `getAllTokenBalances`, if the GOLD fetch fails on
every attempt while the SOL fetch succeeds, the snapshot still carries the
fetched SOL value (with GOLD falling back to 0) — but in the other direction
independence fails: if the SOL fetch fails on all its attempts, the rethrown
error skips the GOLD fetch entirely (0 attempts) and no snapshot is
produced, the balances keeping their previous values. -/
theorem c1_sol_failure_blocks_gold (env : RefreshEnv) (d : Nat) (s : StoreState)
    (pk : PubKey) (v : ℚ) (m : Nat)
    (hsol : retryOrThrow (fun i => solAttempt (env.solAttempts i)) 2 0 = (Except.ok v, m))
    (hgold : ∀ i, goldAttemptAll (env.goldAttempts i) d = Except.error ()) :
    getAllTokenBalances (some pk) (some ()) env d s =
      ⟨⟨⟨v, 0⟩, false⟩, some ⟨v, 0⟩, m, 3⟩ ∧
    ∀ env2 : RefreshEnv, (∀ i, env2.solAttempts i = Except.error ()) →
      (getAllTokenBalances (some pk) (some ()) env2 d s).goldCalls = 0 ∧
      (getAllTokenBalances (some pk) (some ()) env2 d s).state.balances = s.balances := by
  constructor
  · have hg := retryWithFallback_all_fail
      (fun i => goldAttemptAll (env.goldAttempts i) d) 0 2 0 hgold
    simp [getAllTokenBalances, hsol, hg]
  · intro env2 h2
    have hs2 : ∀ i, solAttempt (env2.solAttempts i) = Except.error () := fun i => by
      simp [solAttempt, h2 i, Except.map]
    have h3 := retryOrThrow_all_fail (fun i => solAttempt (env2.solAttempts i)) 2 0 hs2
    constructor <;> simp [getAllTokenBalances, h3]

/-- Claim C1 counterexample: the SOL fetch fails on all three attempts while
the GOLD oracle would succeed with balance 5; yet the GOLD fetch is never
performed (0 attempts), no snapshot is produced, and the stored GOLD value
stays at the stale 3 instead of the available 5. -/
theorem c1_counterexample :
    getAllTokenBalances (some "w") (some ()) goldOkEnv 9 ⟨⟨7, 3⟩, false⟩ =
      ⟨⟨⟨7, 3⟩, false⟩, none, 3, 0⟩ ∧
    goldAttemptAll (goldOkEnv.goldAttempts 0) 9 = Except.ok 5 := by
  refine ⟨by decide, ?_⟩
  norm_num [goldAttemptAll, goldOkEnv, TOKEN_PROGRAM_ID]

/-- Claim C1 witness: instantiation with a succeeding SOL fetch and an
always-failing GOLD fetch. -/
theorem c1_witness :
    getAllTokenBalances (some "w") (some ()) goldFailEnv 9 ⟨⟨7, 3⟩, false⟩ =
      ⟨⟨⟨0, 0⟩, false⟩, some ⟨0, 0⟩, 1, 3⟩ ∧
    ∀ env2 : RefreshEnv, (∀ i, env2.solAttempts i = Except.error ()) →
      (getAllTokenBalances (some "w") (some ()) env2 9 ⟨⟨7, 3⟩, false⟩).goldCalls = 0 ∧
      (getAllTokenBalances (some "w") (some ()) env2 9 ⟨⟨7, 3⟩, false⟩).state.balances =
        ⟨7, 3⟩ :=
  c1_sol_failure_blocks_gold goldFailEnv 9 ⟨⟨7, 3⟩, false⟩ "w" 0 1
    (by simp [retryOrThrow, goldFailEnv, solAttempt, Except.map, LAMPORTS_PER_SOL])
    (fun _ => rfl)

/-- Claim C2 (amended): on exhaustion of all retry attempts, `getTokenBalance`
sets the GOLD balance to 0, but for SOL the final error is rethrown and only
caught by the outer handler, so the stored SOL balance keeps its previous
(stale) value. -/
theorem c2_exhaustion_policy (env : RefreshEnv) (d : Nat) (s : StoreState)
    (hg : ∀ i, goldAttemptOne (env.goldAttempts i) d = Except.error ())
    (hs : ∀ i, env.solAttempts i = Except.error ()) :
    getTokenBalance Symbol.GOLD env d s = ⟨⟨s.balances.SOL, 0⟩, false⟩ ∧
    getTokenBalance Symbol.SOL env d s = ⟨s.balances, false⟩ := by
  have h1 := retryWithFallback_all_fail
    (fun i => goldAttemptOne (env.goldAttempts i) d) 0 2 0 hg
  have hs2 : ∀ i, solAttempt (env.solAttempts i) = Except.error () := fun i => by
    simp [solAttempt, hs i, Except.map]
  have h2 := retryOrThrow_all_fail (fun i => solAttempt (env.solAttempts i)) 2 0 hs2
  constructor
  · simp [getTokenBalance, h1]
  · simp [getTokenBalance, h2]

/-- Claim C2 counterexample: with every SOL attempt failing, `getTokenBalance`
leaves the stored SOL balance at its previous value 7 — not 0 as the claim
requires for every tracked symbol. -/
theorem c2_counterexample :
    getTokenBalance Symbol.SOL alwaysFailEnv 9 ⟨⟨7, 3⟩, false⟩ = ⟨⟨7, 3⟩, false⟩ ∧
    (7 : ℚ) ≠ 0 :=
  ⟨by decide, by norm_num⟩

/-- Claim C2 witness: instantiation of the amended statement at the
all-failing environment. -/
theorem c2_witness :
    getTokenBalance Symbol.GOLD alwaysFailEnv 9 ⟨⟨7, 3⟩, true⟩ = ⟨⟨7, 0⟩, false⟩ ∧
    getTokenBalance Symbol.SOL alwaysFailEnv 9 ⟨⟨7, 3⟩, true⟩ = ⟨⟨7, 3⟩, false⟩ :=
  c2_exhaustion_policy alwaysFailEnv 9 ⟨⟨7, 3⟩, true⟩ (fun _ => rfl) (fun _ => rfl)

/-- Claim C3 (amended): the only in-flight protection is the manual refresh
button being disabled while `isLoading` is true; `getAllTokenBalances` itself
performs no deduplication — invoked while a cycle is already running
(`isLoading = true`), it still performs its fetches against the same store. -/
theorem c3_no_inflight_guard (env : RefreshEnv) (d : Nat) (s : StoreState)
    (pk : PubKey) (h : s.isLoading = true) :
    refreshButtonDisabled s.isLoading = true ∧
    1 ≤ (getAllTokenBalances (some pk) (some ()) env d s).solCalls := by
  refine ⟨by rw [h]; rfl, ?_⟩
  have hp := retryOrThrow_calls_pos (fun i => solAttempt (env.solAttempts i)) 2 0
  unfold getAllTokenBalances
  simp only [Option.isNone_some, Bool.false_eq_true, if_false]
  cases hr : (retryOrThrow (fun i => solAttempt (env.solAttempts i)) 2 0).1 with
  | error e =>
    simp only [hr]
    simpa using hp
  | ok v =>
    simp only [hr]
    simpa using hp

/-- Claim C3 counterexample: a refresh invoked while `isLoading = true` is not
ignored or queued — it runs to completion, performing a fetch attempt for each
asset and publishing a fresh snapshot over the same store state. -/
theorem c3_counterexample :
    getAllTokenBalances (some "w") (some ()) bothOkEnv 9 ⟨⟨7, 3⟩, true⟩ =
      ⟨⟨⟨0, 0⟩, false⟩, some ⟨0, 0⟩, 1, 1⟩ := by
  simp [getAllTokenBalances, bothOkEnv, retryOrThrow, retryWithFallback, solAttempt,
    Except.map, goldAttemptAll, LAMPORTS_PER_SOL, TOKEN_PROGRAM_ID]

/-- Claim C3 witness: instantiation of the amended statement at a loading
store. -/
theorem c3_witness :
    refreshButtonDisabled (StoreState.mk ⟨7, 3⟩ true).isLoading = true ∧
    1 ≤ (getAllTokenBalances (some "w") (some ()) bothOkEnv 9 ⟨⟨7, 3⟩, true⟩).solCalls :=
  c3_no_inflight_guard bothOkEnv 9 ⟨⟨7, 3⟩, true⟩ "w" rfl

/-- Claim C4 (amended): the enhanced validation — account exists, data payload
non-empty, owner is the SPL token program, each failure yielding balance 0 and
no error — is performed by the GOLD fetch of `getAllTokenBalances`; the
`getTokenBalance` path checks only existence. -/
theorem c4_validation_refreshAll (e : GoldAttemptEnv) (d : Nat) (a : PubKey)
    (ha : e.ataResult = Except.ok a) :
    (e.accountInfoResult = Except.ok none → goldAttemptAll e d = Except.ok 0) ∧
    (∀ ai, e.accountInfoResult = Except.ok (some ai) → ai.data = [] →
      goldAttemptAll e d = Except.ok 0) ∧
    (∀ ai, e.accountInfoResult = Except.ok (some ai) → ai.owner ≠ TOKEN_PROGRAM_ID →
      goldAttemptAll e d = Except.ok 0) := by
  refine ⟨fun h => ?_, fun ai h hd => ?_, fun ai h ho => ?_⟩
  · simp [goldAttemptAll, ha, h]
  · simp [goldAttemptAll, ha, h, hd]
  · by_cases hd : ai.data = []
    · simp [goldAttemptAll, ha, h, hd]
    · simp [goldAttemptAll, ha, h, hd, ho]

/-- Claim C4 counterexample: an account with an empty data payload owned by a
foreign program; `getTokenBalance` still trusts the raw `getAccount` read and
stores the non-zero balance 5 / 10^9 instead of 0. -/
theorem c4_counterexample :
    getTokenBalance Symbol.GOLD badOwnerEnv 9 ⟨⟨0, 0⟩, false⟩ =
      ⟨⟨0, (5 : ℚ) / 10 ^ 9⟩, false⟩ ∧
    ((5 : ℚ) / 10 ^ 9 ≠ 0) ∧
    (badOwnerEnv.goldAttempts 0).accountInfoResult =
      Except.ok (some ⟨[], "SomeOtherProgram"⟩) := by
  refine ⟨?_, by norm_num, rfl⟩
  simp [getTokenBalance, badOwnerEnv, retryWithFallback, goldAttemptOne]

/-- Claim C4 witness: instantiation of the amended statement at the account
with empty data and foreign owner. -/
theorem c4_witness :
    ((badOwnerEnv.goldAttempts 0).accountInfoResult = Except.ok none →
      goldAttemptAll (badOwnerEnv.goldAttempts 0) 9 = Except.ok 0) ∧
    (∀ ai, (badOwnerEnv.goldAttempts 0).accountInfoResult = Except.ok (some ai) →
      ai.data = [] → goldAttemptAll (badOwnerEnv.goldAttempts 0) 9 = Except.ok 0) ∧
    (∀ ai, (badOwnerEnv.goldAttempts 0).accountInfoResult = Except.ok (some ai) →
      ai.owner ≠ TOKEN_PROGRAM_ID →
      goldAttemptAll (badOwnerEnv.goldAttempts 0) 9 = Except.ok 0) :=
  c4_validation_refreshAll (badOwnerEnv.goldAttempts 0) 9 "ataAddr" rfl

/-- Claim C7 (amended): on identity detach the effect cleanups clear the
pending delayed-refresh timeouts and stop the periodic interval, but an
in-flight refresh that completes still publishes its snapshot and emits the
`balanceUpdated` event: neither `getAllTokenBalances` nor the publish step
consults the current identity, so there is no identity-still-current check. -/
theorem c7_cleanup_and_publish (env : RefreshEnv) (d : Nat) (s : StoreState)
    (pk : PubKey) (v : ℚ) (m : Nat)
    (hsol : retryOrThrow (fun i => solAttempt (env.solAttempts i)) 2 0 = (Except.ok v, m)) :
    clearTimeouts initialLoadTimeouts = [] ∧
    clearRefreshInterval true = false ∧
    ((getAllTokenBalances (some pk) (some ()) env d s).emitted).isSome = true := by
  refine ⟨rfl, rfl, ?_⟩
  simp [getAllTokenBalances, hsol]

/-- Claim C7 counterexample: a refresh cycle started for a wallet that has
since detached completes and still publishes: the store is overwritten with
the fresh snapshot and the `balanceUpdated` event is emitted, instead of the
result being discarded. -/
theorem c7_counterexample :
    (getAllTokenBalances (some "detached") (some ()) bothOkEnv 9 ⟨⟨1, 1⟩, true⟩).emitted =
      some ⟨0, 0⟩ ∧
    (getAllTokenBalances (some "detached") (some ()) bothOkEnv 9 ⟨⟨1, 1⟩, true⟩).state.balances =
      ⟨0, 0⟩ := by
  constructor <;>
    simp [getAllTokenBalances, bothOkEnv, retryOrThrow, retryWithFallback, solAttempt,
      Except.map, goldAttemptAll, LAMPORTS_PER_SOL, TOKEN_PROGRAM_ID]

/-- Claim C7 witness: instantiation of the amended statement at a succeeding
environment. -/
theorem c7_witness :
    clearTimeouts initialLoadTimeouts = [] ∧
    clearRefreshInterval true = false ∧
    ((getAllTokenBalances (some "w") (some ()) bothOkEnv 9 ⟨⟨1, 1⟩, true⟩).emitted).isSome =
      true :=
  c7_cleanup_and_publish bothOkEnv 9 ⟨⟨1, 1⟩, true⟩ "w" 0 1
    (by simp [retryOrThrow, bothOkEnv, solAttempt, Except.map, LAMPORTS_PER_SOL])

/-- Claim C9 (confirmed): assuming the ledger reports non-negative raw
amounts, every refresh path (`getTokenBalance` for either symbol and
`getAllTokenBalances`) keeps both stored balances non-negative whenever they
were non-negative before. -/
theorem c9_balances_nonneg (sym : Symbol) (env : RefreshEnv) (d : Nat)
    (s : StoreState) (pk : Option PubKey) (conn : Option Unit)
    (hsolEnv : ∀ i lam, env.solAttempts i = Except.ok lam → 0 ≤ lam)
    (hgoldEnv : ∀ i ta, (env.goldAttempts i).getAccountResult = Except.ok ta →
      0 ≤ ta.amount)
    (hSOL : 0 ≤ s.balances.SOL) (hGOLD : 0 ≤ s.balances.GOLD) :
    (0 ≤ (getTokenBalance sym env d s).balances.SOL ∧
      0 ≤ (getTokenBalance sym env d s).balances.GOLD) ∧
    (0 ≤ (getAllTokenBalances pk conn env d s).state.balances.SOL ∧
      0 ≤ (getAllTokenBalances pk conn env d s).state.balances.GOLD) := by
  constructor
  · cases sym with
    | SOL =>
      cases hr : (retryOrThrow (fun i => solAttempt (env.solAttempts i)) 2 0).1 with
      | error e => simp [getTokenBalance, hr, hSOL, hGOLD]
      | ok v =>
        have hv := solRetry_nonneg env v hsolEnv hr
        simp [getTokenBalance, hr, hv, hGOLD]
    | GOLD =>
      have hv := goldRetryOne_nonneg env d hgoldEnv
      simp [getTokenBalance, hSOL, hv]
  · cases pk with
    | none => simpa [getAllTokenBalances] using ⟨hSOL, hGOLD⟩
    | some p =>
      cases conn with
      | none => simpa [getAllTokenBalances] using ⟨hSOL, hGOLD⟩
      | some c =>
        cases hr : (retryOrThrow (fun i => solAttempt (env.solAttempts i)) 2 0).1 with
        | error e => simp [getAllTokenBalances, hr, hSOL, hGOLD]
        | ok v =>
          have hv := solRetry_nonneg env v hsolEnv hr
          have hg := goldRetryAll_nonneg env d hgoldEnv
          simp [getAllTokenBalances, hr, hv, hg]

/-- Claim C9 witness: instantiation at a succeeding environment reporting
zero raw amounts. -/
theorem c9_witness :
    (0 ≤ (getTokenBalance Symbol.GOLD bothOkEnv 9 ⟨⟨0, 0⟩, false⟩).balances.SOL ∧
      0 ≤ (getTokenBalance Symbol.GOLD bothOkEnv 9 ⟨⟨0, 0⟩, false⟩).balances.GOLD) ∧
    (0 ≤ (getAllTokenBalances (some "w") (some ()) bothOkEnv 9
        ⟨⟨0, 0⟩, false⟩).state.balances.SOL ∧
      0 ≤ (getAllTokenBalances (some "w") (some ()) bothOkEnv 9
        ⟨⟨0, 0⟩, false⟩).state.balances.GOLD) :=
  c9_balances_nonneg Symbol.GOLD bothOkEnv 9 ⟨⟨0, 0⟩, false⟩ (some "w") (some ())
    (fun i lam h => by injection h with h; omega)
    (fun i ta h => by injection h with h; rw [← h])
    le_rfl le_rfl

end Goldium
